import Mathlib

/-!
Verification development for the SiteGuard video analyzer.

The definitions below are a shallow embedding of the TypeScript/JavaScript
sources: types.ts (data model), services/apiService.ts (mock report store),
App.tsx (frame capture, thumbnail generation, report saving) and
backend/src/services/videoProcessor.js (audio inspection and repair).
JavaScript optional object properties become `Option` fields; JavaScript
truthiness tests on strings and numbers are modeled explicitly; the ambient
millisecond clock (`Date.now()`) is an explicit `Nat` parameter; asynchronous
DOM events are modeled as an explicit environment value describing which event
fires first.
-/

namespace SiteGuard

/-- ViolationSeverity enum from types.ts. -/
inductive ViolationSeverity
  | Critical
  | High
  | Medium
  | Low
  | Info
deriving DecidableEq, Repr

/-- ReportStatus enum from types.ts. -/
inductive ReportStatus
  | PendingReview
  | Reviewed
  | ActionRequired
  | Closed
deriving DecidableEq, Repr

/-- DetectedViolation from types.ts.  `thumbnailDataUrl` models the JavaScript
tri-state encoded by attribute presence: `none` means the property is absent
(capture not yet attempted), `some (some s)` is a captured data URL, and
`some none` is the stored `null` marking an attempted-and-failed capture. -/
structure DetectedViolation where
  description : String
  startTimeSeconds : ℚ
  endTimeSeconds : ℚ
  durationSeconds : ℚ
  severity : ViolationSeverity
  onScreenStartTime : Option String := none
  onScreenEndTime : Option String := none
  thumbnailDataUrl : Option (Option String) := none
deriving DecidableEq, Repr

/-- VideoAnalysisReport from types.ts.  `analysisDateTime` is an ISO string in
the source; it is stored here as the string produced by `toIsoString` below. -/
structure VideoAnalysisReport where
  id : String
  videoId : String
  videoFileName : String
  videoFileUri : Option String := none
  analysisDateTime : String
  jsaContext : Option String := none
  userPrompt : Option String := none
  geminiRawResponse : String
  summary : Option String := none
  safetyScore : Option ℚ := none
  violations : List DetectedViolation
  positiveObservations : Option (List String) := none
  operatorComments : Option String := none
  reportStatus : ReportStatus
  videoDurationSeconds : Option ℚ := none
deriving DecidableEq, Repr

/-- The `Omit<VideoAnalysisReport, 'id'>` payload accepted by
`apiService.addVideoAnalysisReport`. -/
structure VideoAnalysisReportData where
  videoId : String
  videoFileName : String
  videoFileUri : Option String := none
  analysisDateTime : String
  jsaContext : Option String := none
  userPrompt : Option String := none
  geminiRawResponse : String
  summary : Option String := none
  safetyScore : Option ℚ := none
  violations : List DetectedViolation
  positiveObservations : Option (List String) := none
  operatorComments : Option String := none
  reportStatus : ReportStatus
  videoDurationSeconds : Option ℚ := none
deriving DecidableEq, Repr

/-- Model of `new Date(ms).toISOString()`: the rendering is kept injective by
printing the millisecond clock value itself; the exact ISO text is irrelevant
to every claim, only equality of timestamps matters. -/
def toIsoString (ms : Nat) : String :=
  toString ms

/-- JavaScript truthiness of an optional string property: `undefined`, `null`
and the empty string are falsy. -/
def strTruthy : Option String → Bool
  | none => false
  | some s => s != ""

/-- JavaScript truthiness of an optional numeric property: `undefined`, `null`
and `0` are falsy. -/
def natTruthy : Option Nat → Bool
  | none => false
  | some n => n != 0

/-- Model of the JavaScript idiom `s || dflt` on an optional string. -/
def strOr (o : Option String) (dflt : String) : String :=
  match o with
  | none => dflt
  | some s => if s == "" then dflt else s

/-- apiService.addVideoAnalysisReport (src/services/apiService.ts:21-30).
The store is the module-level `mockVideoAnalysisReports` array; `clock` is the
value `Date.now()` returns during the call.  The new report takes the spread
payload with `id` assigned from the clock and `analysisDateTime` overwritten
with the current time, and is pushed at the end of the store. -/
def addVideoAnalysisReport (store : List VideoAnalysisReport) (clock : Nat)
    (reportData : VideoAnalysisReportData) :
    List VideoAnalysisReport × VideoAnalysisReport :=
  let newReport : VideoAnalysisReport :=
    { id := "var-" ++ toString clock
      videoId := reportData.videoId
      videoFileName := reportData.videoFileName
      videoFileUri := reportData.videoFileUri
      analysisDateTime := toIsoString clock
      jsaContext := reportData.jsaContext
      userPrompt := reportData.userPrompt
      geminiRawResponse := reportData.geminiRawResponse
      summary := reportData.summary
      safetyScore := reportData.safetyScore
      violations := reportData.violations
      positiveObservations := reportData.positiveObservations
      operatorComments := reportData.operatorComments
      reportStatus := reportData.reportStatus
      videoDurationSeconds := reportData.videoDurationSeconds }
  (store ++ [newReport], newReport)

/-- apiService.getVideoAnalysisReportById (src/services/apiService.ts:32-35):
`Array.prototype.find` returns the first report with a matching id. -/
def getVideoAnalysisReportById (store : List VideoAnalysisReport)
    (id : String) : Option VideoAnalysisReport :=
  store.find? (fun r => r.id == id)

/-- The `Partial<VideoAnalysisReport>` argument of
`apiService.updateVideoAnalysisReport`: every field may be absent. -/
structure ReportUpdates where
  id : Option String := none
  videoId : Option String := none
  videoFileName : Option String := none
  videoFileUri : Option (Option String) := none
  analysisDateTime : Option String := none
  jsaContext : Option (Option String) := none
  userPrompt : Option (Option String) := none
  geminiRawResponse : Option String := none
  summary : Option (Option String) := none
  safetyScore : Option (Option ℚ) := none
  violations : Option (List DetectedViolation) := none
  positiveObservations : Option (Option (List String)) := none
  operatorComments : Option (Option String) := none
  reportStatus : Option ReportStatus := none
  videoDurationSeconds : Option (Option ℚ) := none
deriving DecidableEq, Repr

/-- The object spread `{ ...originalReport, ...updates }`: each field present
in `updates` overwrites the original, each absent field keeps its prior
value. -/
def applyUpdates (r : VideoAnalysisReport) (u : ReportUpdates) :
    VideoAnalysisReport :=
  { id := u.id.getD r.id
    videoId := u.videoId.getD r.videoId
    videoFileName := u.videoFileName.getD r.videoFileName
    videoFileUri := u.videoFileUri.getD r.videoFileUri
    analysisDateTime := u.analysisDateTime.getD r.analysisDateTime
    jsaContext := u.jsaContext.getD r.jsaContext
    userPrompt := u.userPrompt.getD r.userPrompt
    geminiRawResponse := u.geminiRawResponse.getD r.geminiRawResponse
    summary := u.summary.getD r.summary
    safetyScore := u.safetyScore.getD r.safetyScore
    violations := u.violations.getD r.violations
    positiveObservations := u.positiveObservations.getD r.positiveObservations
    operatorComments := u.operatorComments.getD r.operatorComments
    reportStatus := u.reportStatus.getD r.reportStatus
    videoDurationSeconds := u.videoDurationSeconds.getD r.videoDurationSeconds }

/-- apiService.updateVideoAnalysisReport (src/services/apiService.ts:48-64):
`findIndex` locates the first report with the given id; on -1 the call throws
"Report not found for update." leaving the store untouched; otherwise that
slot is replaced by the spread of the original with the updates and the
updated report is returned.  The recursion below is the functional reading of
findIndex followed by single-slot assignment. -/
def updateVideoAnalysisReport :
    List VideoAnalysisReport → String → ReportUpdates →
    List VideoAnalysisReport × Except String VideoAnalysisReport
  | [], _, _ => ([], Except.error "Report not found for update.")
  | r :: rest, id, u =>
    if r.id = id then
      (applyUpdates r u :: rest, Except.ok (applyUpdates r u))
    else
      let tail := updateVideoAnalysisReport rest id u
      (r :: tail.1, tail.2)

/-! Frame capture engine: captureFrameAtTime (src/App.tsx:56-140). -/

/-- HTMLVideoElement state read by captureFrameAtTime. -/
structure VideoElementState where
  readyState : Nat
  hasCurrentSrc : Bool
  paused : Bool
  videoWidth : Nat
  videoHeight : Nat
  isConnected : Bool
deriving DecidableEq, Repr

/-- Which of the `loadedmetadata` listener and its 5000 ms timeout wins. -/
inductive MetadataEvent
  | fires
  | timesOut
deriving DecidableEq, Repr

/-- Which of the `seeked` listener, the `error` listener and the 7000 ms seek
timeout wins after `currentTime` is assigned. -/
inductive SeekEvent
  | seeked
  | errored
  | timedOut
deriving DecidableEq, Repr

/-- The asynchronous environment of one captureFrameAtTime call: which events
fire, whether `canvas.getContext('2d')` is available, and the data URL
`canvas.toDataURL('image/jpeg', 0.8)` would produce. -/
structure CaptureEnv where
  metadataEvent : MetadataEvent
  seekEvent : SeekEvent
  ctx2dAvailable : Bool
  encodedFrame : String
deriving DecidableEq, Repr

/-- How the returned promise settles: `resolved` with an optional data URL, or
`rejected` with an error message. -/
inductive CaptureOutcome
  | resolved (dataUrl : Option String)
  | rejected (message : String)
deriving DecidableEq, Repr

/-- Observable result of one captureFrameAtTime call: how the promise settles,
whether a seek was issued (and to which time), and the element's paused flag
after the call. -/
structure CaptureRun where
  outcome : CaptureOutcome
  seekTarget : Option ℚ
  finalPaused : Bool
deriving DecidableEq, Repr

/-- HTMLMediaElement.HAVE_NOTHING readyState constant. -/
def HAVE_NOTHING : Nat := 0

/-- HTMLMediaElement.HAVE_METADATA readyState constant. -/
def HAVE_METADATA : Nat := 1

/-- Paused flag after the cleanup `if (!wasPaused && videoElement.isConnected)
videoElement.play()`: an element that was already paused stays paused and a
playing element is resumed only while still connected to the document. -/
def restoredPaused (wasPaused connected : Bool) : Bool :=
  if wasPaused then true else if connected then false else true

/-- proceedWithCapture (src/App.tsx:86-138).  The element is paused for the
seek when it was playing; then exactly one of the seeked/error/timeout
continuations runs.  On `seeked`, a canvas sized to the native resolution is
drawn: zero width or height resolves `null`, a missing 2d context resolves
`null`, otherwise the encoded frame is resolved; each continuation runs the
playback-restore cleanup guarded by `isConnected`. -/
def proceedWithCapture (el : VideoElementState) (env : CaptureEnv)
    (timeSeconds : ℚ) : CaptureRun :=
  let wasPaused := el.paused
  match env.seekEvent with
  | SeekEvent.seeked =>
      if el.videoWidth == 0 || el.videoHeight == 0 then
        { outcome := CaptureOutcome.resolved none
          seekTarget := some timeSeconds
          finalPaused := restoredPaused wasPaused el.isConnected }
      else if env.ctx2dAvailable then
        { outcome := CaptureOutcome.resolved (some env.encodedFrame)
          seekTarget := some timeSeconds
          finalPaused := restoredPaused wasPaused el.isConnected }
      else
        { outcome := CaptureOutcome.resolved none
          seekTarget := some timeSeconds
          finalPaused := restoredPaused wasPaused el.isConnected }
  | SeekEvent.errored =>
      { outcome := CaptureOutcome.rejected "Video seeking error during frame capture."
        seekTarget := some timeSeconds
        finalPaused := restoredPaused wasPaused el.isConnected }
  | SeekEvent.timedOut =>
      { outcome := CaptureOutcome.rejected "Timeout during frame capture seeking."
        seekTarget := some timeSeconds
        finalPaused := restoredPaused wasPaused el.isConnected }

/-- captureFrameAtTime (src/App.tsx:56-140).  Below HAVE_METADATA the call
waits for `loadedmetadata`, except that an element with readyState
HAVE_NOTHING and no `currentSrc` resolves `null` immediately; a metadata
timeout also resolves `null`.  With metadata available the seek is issued via
proceedWithCapture. -/
def captureFrameAtTime (el : VideoElementState) (env : CaptureEnv)
    (timeSeconds : ℚ) : CaptureRun :=
  if el.readyState < HAVE_METADATA then
    if el.readyState == HAVE_NOTHING && !el.hasCurrentSrc then
      { outcome := CaptureOutcome.resolved none
        seekTarget := none
        finalPaused := el.paused }
    else
      match env.metadataEvent with
      | MetadataEvent.timesOut =>
          { outcome := CaptureOutcome.resolved none
            seekTarget := none
            finalPaused := el.paused }
      | MetadataEvent.fires => proceedWithCapture el env timeSeconds
  else
    proceedWithCapture el env timeSeconds

/-! Evidence binder: the per-violation loop of generateAllThumbnails
(src/App.tsx:362-374). -/

/-- Outcome of the awaited captureFrameAtTime promise for one violation:
a fulfilled data URL, a fulfilled `null` (soft failure), or a rejection
(caught by the loop's try/catch). -/
inductive CapOutcome
  | ok (dataUrl : String)
  | softNull
  | err (message : String)
deriving DecidableEq, Repr

/-- The per-violation update of the loop body: a fulfilled capture stores its
value (the data URL, or `null` when the promise fulfilled with `null`), and a
rejection is caught and stores `null`. -/
def applyCapture (o : CapOutcome) (v : DetectedViolation) : DetectedViolation :=
  match o with
  | CapOutcome.ok d => { v with thumbnailDataUrl := some (some d) }
  | CapOutcome.softNull => { v with thumbnailDataUrl := some none }
  | CapOutcome.err _ => { v with thumbnailDataUrl := some none }

/-- The `for` loop of generateAllThumbnails from index `i` on.  `cap j` is the
outcome the capture engine produces for the violation at absolute index `j`;
it is consulted only for violations whose `thumbnailDataUrl` property is
absent (`hasOwnProperty` is false).  The second component is the trace of
startTimeSeconds values passed to captureFrameAtTime, in invocation order. -/
def generateThumbnailsFrom (cap : Nat → CapOutcome) :
    Nat → List DetectedViolation → List DetectedViolation × List ℚ
  | _, [] => ([], [])
  | i, v :: vs =>
    if v.thumbnailDataUrl.isNone then
      let rest := generateThumbnailsFrom cap (i + 1) vs
      (applyCapture (cap i) v :: rest.1, v.startTimeSeconds :: rest.2)
    else
      let rest := generateThumbnailsFrom cap (i + 1) vs
      (v :: rest.1, rest.2)

/-- generateAllThumbnails' violation loop over the whole list
(src/App.tsx:359-374): `updatedViolations` starts as a copy of the current
violations and each pending entry is overwritten in place. -/
def generateAllThumbnails (cap : Nat → CapOutcome)
    (vs : List DetectedViolation) : List DetectedViolation × List ℚ :=
  generateThumbnailsFrom cap 0 vs

/-! Analysis response parsing: the JSON.parse step of handleAnalyzeVideo
(src/App.tsx:295-308). -/

/-- ParsedAnalysisResult from src/App.tsx:46-53. -/
structure ParsedAnalysisResult where
  summary : Option String := none
  safetyScore : Option ℚ := none
  violations : List DetectedViolation
  positiveObservations : Option (List String) := none
  error : Option String := none
  rawResponse : Option String := none
deriving DecidableEq, Repr

/-- The parse step of handleAnalyzeVideo (src/App.tsx:295-308).  `decode`
stands for `JSON.parse` checked against the ParsedAnalysisResult shape;
`none` models a thrown decode exception.  A successful decode is used as is
(the spread `{ violations: [], ...parsed }` on the AI-error branch equals
`parsed` because `violations` is always present in a decoded result); the
catch branch synthesizes a degraded result carrying the raw text, so the
function is total and no exception reaches the caller. -/
def parseAnalysisResponse (decode : String → Option ParsedAnalysisResult)
    (raw : String) : ParsedAnalysisResult :=
  match decode raw with
  | some parsed => parsed
  | none =>
      { error := some "Failed to parse analysis result."
        violations := []
        rawResponse := some raw }

/-! Video integrity repair: backend/src/services/videoProcessor.js. -/

/-- Audio stream fields surfaced by ffprobe and read by detectAudioIssues;
each may be absent from the probed stream object. -/
structure AudioStreamInfo where
  channels : Option Nat := none
  sample_rate : Option Nat := none
  codec_name : Option String := none
  channel_layout : Option String := none
deriving DecidableEq, Repr

/-- detectAudioIssues (videoProcessor.js:68-87).  The channel check is
`!audioStream.channels || audioStream.channels === 0` (absent or zero), the
sample-rate check is `audioStream.sample_rate && parseInt(...) < 8000` (a
falsy sample rate, absent or zero, skips the check), and the codec check is
`!audioStream.codec_name` (absent or empty).  Returns the issue list, or
`none` in place of the source's `null` when no issue was found. -/
def detectAudioIssues (audioStream : AudioStreamInfo) : Option (List String) :=
  let issues : List String :=
    (if !natTruthy audioStream.channels then
      ["Invalid channel count (0 channels)"] else [])
    ++ (if natTruthy audioStream.sample_rate &&
          decide (audioStream.sample_rate.getD 0 < 8000) then
      ["Low sample rate (" ++ toString (audioStream.sample_rate.getD 0)
        ++ "Hz < 8kHz)"] else [])
    ++ (if !strTruthy audioStream.codec_name then
      ["Missing audio codec"] else [])
  if issues.isEmpty then none else some issues

/-- The spec sentence for C4, verbatim for comparison with the code:
needsRepair is claimed true exactly when `channels == 0`, `sampleRateHz <
8000`, or `codec` is absent. -/
def needsRepairSpec (d : AudioStreamInfo) : Bool :=
  d.channels == some 0
    || (match d.sample_rate with
        | some r => decide (r < 8000)
        | none => false)
    || d.codec_name == none

/-- The descriptor flag the spec calls `needsRepair`: the probed stream is
flagged when detectAudioIssues reports a non-null issue list. -/
def needsRepair (d : AudioStreamInfo) : Bool :=
  (detectAudioIssues d).isSome

/-- The audio descriptor ffprobe reports for the repaired output: processVideo
forces `-ac 2`, `-ar 44100`, `-c:a aac` (videoProcessor.js:109-118). -/
def repairedDescriptor : AudioStreamInfo :=
  { channels := some 2
    sample_rate := some 44100
    codec_name := some "aac"
    channel_layout := some "stereo" }

/-- A file system as a map from path to file content; the content type is kept
abstract, video bytes are never interpreted. -/
def FileSystem (α : Type) : Type := String → Option α

/-- processVideo (videoProcessor.js:101-141): ffmpeg reads `inputPath`, muxes
the synthesized silent stereo 44.1kHz track, re-encodes, and writes the result
to `outputPath` (`-y` overwrites).  `transcode` stands for the content
transformation ffmpeg performs.  The promise rejects when ffmpeg errors, in
particular when the input cannot be read; no write to `inputPath` occurs. -/
def processVideo {α : Type} (transcode : α → α) (fs : FileSystem α)
    (inputPath outputPath : String) : Except String (FileSystem α) :=
  match fs inputPath with
  | none => Except.error "Video processing failed: input not found"
  | some content =>
      Except.ok (fun p => if p = outputPath then some (transcode content) else fs p)

/-- needsGeminiProcessing (videoProcessor.js:92-96): always true, every upload
is normalized for compatibility. -/
def needsGeminiProcessing : Bool := true

/-- Result of the ingest pipeline: the final file system, the path recorded as
`storage_path`, and the `processing_status` written to the videos row. -/
structure IngestResult (α : Type) where
  fs : FileSystem α
  finalPath : String
  processingStatus : String

/-- processVideoFile (videoProcessor.js:196-284): analyze the upload (ffprobe
fails when the file is unreadable), then, since needsGeminiProcessing is
always true, run processVideo into the processed path, mark the row completed,
and unlink the original upload.  Database metadata writes are modeled only by
the recorded processing status; they do not touch the file system. -/
def processVideoFile {α : Type} (transcode : α → α) (fs : FileSystem α)
    (originalPath processedPath : String) : Except String (IngestResult α) :=
  match fs originalPath with
  | none => Except.error "Failed to analyze video: input not found"
  | some _ =>
    if needsGeminiProcessing then
      match processVideo transcode fs originalPath processedPath with
      | Except.error e => Except.error e
      | Except.ok fs1 =>
          Except.ok
            { fs := fun p => if p = originalPath then none else fs1 p
              finalPath := processedPath
              processingStatus := "completed" }
    else
      Except.ok
        { fs := fs
          finalPath := originalPath
          processingStatus := "completed" }

/-! Report saving: handleSaveReport (src/App.tsx:424-488). -/

/-- The upload metadata handleSaveReport reads from `uploadedFileDetails`. -/
structure UploadedFileDetails where
  name : String
  uri : String
  videoId : String
  mimeType : String
deriving DecidableEq, Repr

/-- The component state handleSaveReport reads. -/
structure SaveContext where
  selectedReportForViewing : Option VideoAnalysisReport := none
  savedReport : Option VideoAnalysisReport := none
  analysisResult : Option ParsedAnalysisResult := none
  selectedFileName : Option String := none
  uploadedFileDetails : Option UploadedFileDetails := none
  rawGeminiResponse : Option String := none
  jsaContext : String := ""
  userInstructionPrompt : String := ""
  operatorComments : String := ""
  currentReportStatus : ReportStatus := ReportStatus.PendingReview
  videoDuration : Option ℚ := none
deriving DecidableEq, Repr

/-- How one handleSaveReport call ends. -/
inductive SaveOutcome
  | rejected (message : String)
  | saved (report : VideoAnalysisReport)
  | delegatedUpdate
deriving DecidableEq, Repr

/-- Stand-in for `JSON.stringify(analysisResult)` on the save path; no claim
depends on the serialized text, only on which string is chosen. -/
def jsonStringifyAnalysis (_ar : ParsedAnalysisResult) : String :=
  "[stringified analysis result]"

/-- The guard at src/App.tsx:433: a new analysis (no historical report
selected) with a truthy `error` and no violations is refused. -/
def rejectsForCriticalError (ctx : SaveContext) : Bool :=
  ctx.selectedReportForViewing.isNone
    && (match ctx.analysisResult with
        | some ar => strTruthy ar.error && ar.violations.isEmpty
        | none => false)

/-- The `reportToSave` record built on the new-analysis branch of
handleSaveReport (src/App.tsx:461-476): provenance from the selected file and
upload details, the spread analysis fields, the operator inputs, and the
current clock as analysis time (addVideoAnalysisReport overwrites it with the
same clock). -/
def newReportPayload (ctx : SaveContext) (fileName : String)
    (details : UploadedFileDetails) (ar : ParsedAnalysisResult)
    (clock : Nat) : VideoAnalysisReportData :=
  { videoId := details.videoId
    videoFileName := fileName
    videoFileUri := some details.uri
    analysisDateTime := toIsoString clock
    jsaContext := some ctx.jsaContext
    userPrompt := some ctx.userInstructionPrompt
    geminiRawResponse := strOr ctx.rawGeminiResponse (jsonStringifyAnalysis ar)
    summary := ar.summary
    safetyScore := ar.safetyScore
    violations := ar.violations
    positiveObservations := ar.positiveObservations
    operatorComments := some ctx.operatorComments
    reportStatus := ctx.currentReportStatus
    videoDurationSeconds := ctx.videoDuration }

/-- handleSaveReport (src/App.tsx:424-488).  The guards run in source order:
the critical-error rejection, the missing-data rejection, the
historical-report path (delegating to handleUpdateReport after the
active-report consistency check), and finally the new-analysis save, which
builds the report payload and pushes it through
apiService.addVideoAnalysisReport.  Returns the resulting store and the call
outcome; every rejection leaves the store unchanged. -/
def handleSaveReport (ctx : SaveContext) (store : List VideoAnalysisReport)
    (clock : Nat) : List VideoAnalysisReport × SaveOutcome :=
  if rejectsForCriticalError ctx then
    (store, SaveOutcome.rejected
      "Cannot save report with critical analysis errors and no violation data.")
  else if ctx.selectedReportForViewing.isNone
      && (ctx.analysisResult.isNone || ctx.selectedFileName.isNone
          || ctx.uploadedFileDetails.isNone) then
    (store, SaveOutcome.rejected "No new analysis result or file details to save.")
  else
    match ctx.selectedReportForViewing with
    | some viewing =>
        match ctx.savedReport with
        | some active =>
            if active.id = viewing.id then
              (store, SaveOutcome.delegatedUpdate)
            else
              (store, SaveOutcome.rejected
                "Inconsistent state: trying to update a historical report that is not set as active.")
        | none =>
            (store, SaveOutcome.rejected
              "Inconsistent state: trying to update a historical report that is not set as active.")
    | none =>
        match ctx.selectedFileName, ctx.uploadedFileDetails, ctx.analysisResult with
        | some fileName, some details, some ar =>
            let reportToSave := newReportPayload ctx fileName details ar clock
            let result := addVideoAnalysisReport store clock reportToSave
            (result.1, SaveOutcome.saved result.2)
        | _, _, _ =>
            (store, SaveOutcome.rejected
              "Missing file, upload details, or analysis results for new report.")

/-! Concrete inputs used to instantiate the theorems below. -/

/-- A violation pending thumbnail capture at 10 s (Scenario C shape). -/
def pendingViolation1 : DetectedViolation :=
  { description := "Worker without hard hat near crane"
    startTimeSeconds := 10
    endTimeSeconds := 12
    durationSeconds := 2
    severity := ViolationSeverity.High }

/-- A violation whose thumbnail was already captured in a prior pass. -/
def capturedViolation : DetectedViolation :=
  { description := "Missing guardrail on scaffold"
    startTimeSeconds := 20
    endTimeSeconds := 25
    durationSeconds := 5
    severity := ViolationSeverity.Critical
    thumbnailDataUrl := some (some "data:image/jpeg;base64,QQ==") }

/-- A second pending violation, later in the list, at 30 s. -/
def pendingViolation2 : DetectedViolation :=
  { description := "Unsecured ladder use"
    startTimeSeconds := 30
    endTimeSeconds := 31
    durationSeconds := 1
    severity := ViolationSeverity.Medium }

/-- Violation list mixing pending and already-captured thumbnails. -/
def violationsEx : List DetectedViolation :=
  [pendingViolation1, capturedViolation, pendingViolation2]

/-- Capture outcomes for the violations above: success at index 0, a rejection
at index 2; index 1 is never attempted. -/
def capEx : Nat → CapOutcome :=
  fun i =>
    if i == 0 then CapOutcome.ok "data:image/jpeg;base64,Zg=="
    else CapOutcome.err "Timeout during frame capture seeking."

/-- A decode that always fails, standing for JSON.parse throwing on the raw
text. -/
def decodeAlwaysFails : String → Option ParsedAnalysisResult :=
  fun _ => none

/-- The descriptor on which the code and the spec sentence disagree: a zero
sample rate is falsy in JavaScript, so the low-sample-rate issue is skipped. -/
def badAudioDescriptor : AudioStreamInfo :=
  { channels := some 2
    sample_rate := some 0
    codec_name := some "aac" }

/-- A descriptor with zero audio channels (the Scenario D shape). -/
def zeroChannelDescriptor : AudioStreamInfo :=
  { channels := some 0
    sample_rate := some 44100
    codec_name := some "pcm_s16le" }

/-- The content transformation ffmpeg applies in the example ingest run. -/
def exTranscode : String → String :=
  fun content => "h264+aac:" ++ content

/-- File system holding one raw upload in the multer temp directory. -/
def exUploadFs : FileSystem String :=
  fun p => if p = "uploads/temp/site.mp4" then some "original-bytes" else none

/-- What the ingest pipeline leaves at the input path: `none` would mean the
pipeline failed, `some v` is the entry at the input path afterwards. -/
def fsAfterIngestAtInput : Option (Option String) :=
  (processVideoFile exTranscode exUploadFs "uploads/temp/site.mp4"
      "uploads/processed/site_processed.mp4").toOption.map
    (fun r => r.fs "uploads/temp/site.mp4")

/-- An element that reported zero native width at seek completion. -/
def zeroWidthEl : VideoElementState :=
  { readyState := 2
    hasCurrentSrc := true
    paused := true
    videoWidth := 0
    videoHeight := 360
    isConnected := true }

/-- A playing element that has been removed from the document. -/
def disconnectedPlayingEl : VideoElementState :=
  { readyState := 2
    hasCurrentSrc := true
    paused := false
    videoWidth := 320
    videoHeight := 240
    isConnected := false }

/-- A playing element still connected to the document. -/
def connectedPlayingEl : VideoElementState :=
  { readyState := 2
    hasCurrentSrc := true
    paused := false
    videoWidth := 320
    videoHeight := 240
    isConnected := true }

/-- An environment in which the seek completes normally and encoding works. -/
def seekedEnv : CaptureEnv :=
  { metadataEvent := MetadataEvent.fires
    seekEvent := SeekEvent.seeked
    ctx2dAvailable := true
    encodedFrame := "data:image/jpeg;base64,Zg==" }

/-- Upload details as returned by uploadVideoFile for the example session. -/
def uploadDetailsEx : UploadedFileDetails :=
  { name := "site.mp4"
    uri := "https://generativelanguage/files/abc123"
    videoId := "files/abc123"
    mimeType := "video/mp4" }

/-- An analysis result that failed totally: an error and no violations. -/
def totalFailureResult : ParsedAnalysisResult :=
  { error := some "Failed to parse analysis result."
    violations := []
    rawResponse := some "not json" }

/-- An analysis result with an error but one extracted violation. -/
def partialFailureResult : ParsedAnalysisResult :=
  { error := some "Gemini reported it could not process part of the video."
    violations := [pendingViolation1]
    rawResponse := some "partial" }

/-- Save context for a new analysis whose result is a total failure. -/
def totalFailureCtx : SaveContext :=
  { analysisResult := some totalFailureResult
    selectedFileName := some "site.mp4"
    uploadedFileDetails := some uploadDetailsEx
    rawGeminiResponse := some "not json" }

/-- Save context for a new analysis with an error but partial violation data. -/
def partialFailureCtx : SaveContext :=
  { analysisResult := some partialFailureResult
    selectedFileName := some "site.mp4"
    uploadedFileDetails := some uploadDetailsEx
    rawGeminiResponse := some "partial" }

/-- Report payload A for the store round-trip examples. -/
def payloadA : VideoAnalysisReportData :=
  { videoId := "files/vidA"
    videoFileName := "siteA.mp4"
    analysisDateTime := "2025-01-01T00:00:00.000Z"
    geminiRawResponse := "{}"
    summary := some "summary A"
    safetyScore := some 90
    violations := []
    reportStatus := ReportStatus.PendingReview }

/-- Report payload B, saved during the same millisecond as payload A. -/
def payloadB : VideoAnalysisReportData :=
  { videoId := "files/vidB"
    videoFileName := "siteB.mp4"
    analysisDateTime := "2025-01-02T00:00:00.000Z"
    geminiRawResponse := "{}"
    summary := some "summary B"
    safetyScore := some 40
    violations := []
    reportStatus := ReportStatus.PendingReview }

/-- Store after saving payload A at millisecond clock 5. -/
def collidingStore : List VideoAnalysisReport :=
  (addVideoAnalysisReport [] 5 payloadA).1

/-- Round trip of payload B through a store already holding a report whose id
was generated at the same millisecond. -/
def collidingRoundTrip : Option VideoAnalysisReport :=
  getVideoAnalysisReportById
    (addVideoAnalysisReport collidingStore 5 payloadB).1
    (addVideoAnalysisReport collidingStore 5 payloadB).2.id

/-- A stored report with id var-1. -/
def reportX : VideoAnalysisReport :=
  (addVideoAnalysisReport [] 1 payloadA).2

/-- A stored report with id var-5. -/
def reportY : VideoAnalysisReport :=
  (addVideoAnalysisReport [] 5 payloadB).2

/-- An operator update touching comments and status only. -/
def updatesEx : ReportUpdates :=
  { operatorComments := some (some "Checked on site, crew briefed.")
    reportStatus := some ReportStatus.Reviewed }

/-! Helper lemmas. -/

lemma generateThumbnailsFrom_length (cap : Nat → CapOutcome) :
    ∀ (vs : List DetectedViolation) (i0 : Nat),
      (generateThumbnailsFrom cap i0 vs).1.length = vs.length := by
  intro vs
  induction vs with
  | nil => intro i0; rfl
  | cons v vs ih =>
    intro i0
    cases hb : v.thumbnailDataUrl.isNone <;>
      simp [generateThumbnailsFrom, hb, ih]

lemma generateThumbnailsFrom_get? (cap : Nat → CapOutcome) :
    ∀ (vs : List DetectedViolation) (i0 j : Nat),
      (generateThumbnailsFrom cap i0 vs).1.get? j
        = (vs.get? j).map (fun v =>
            if v.thumbnailDataUrl.isNone then applyCapture (cap (i0 + j)) v else v) := by
  intro vs
  induction vs with
  | nil => intro i0 j; simp [generateThumbnailsFrom]
  | cons v vs ih =>
    intro i0 j
    cases j with
    | zero =>
      cases hb : v.thumbnailDataUrl <;>
        simp [generateThumbnailsFrom, hb]
    | succ j =>
      have harith : i0 + 1 + j = i0 + (j + 1) := by omega
      have hrec := ih (i0 + 1) j
      rw [harith] at hrec
      cases hb : v.thumbnailDataUrl <;>
        simpa [generateThumbnailsFrom, hb] using hrec

lemma generateThumbnailsFrom_trace (cap : Nat → CapOutcome) :
    ∀ (vs : List DetectedViolation) (i0 : Nat),
      (generateThumbnailsFrom cap i0 vs).2
        = (vs.filter (fun v => v.thumbnailDataUrl.isNone)).map
            (fun v => v.startTimeSeconds) := by
  intro vs
  induction vs with
  | nil => intro i0; rfl
  | cons v vs ih =>
    intro i0
    cases hb : v.thumbnailDataUrl.isNone <;>
      simp [generateThumbnailsFrom, List.filter, hb, ih]

lemma find?_append_of_all_neg {α : Type} (p : α → Bool) :
    ∀ (l : List α) (x : α), (∀ r ∈ l, p r = false) →
      List.find? p (l ++ [x]) = List.find? p [x] := by
  intro l
  induction l with
  | nil => intro x _; rfl
  | cons a l ih =>
    intro x h
    have ha : p a = false := h a (by simp)
    simp only [List.cons_append, List.find?]
    rw [ha]
    exact ih x (fun r hr => h r (by simp [hr]))

lemma updateVideoAnalysisReport_not_found (id : String) (u : ReportUpdates) :
    ∀ store : List VideoAnalysisReport, (∀ r ∈ store, r.id ≠ id) →
      updateVideoAnalysisReport store id u
        = (store, Except.error "Report not found for update.") := by
  intro store
  induction store with
  | nil => intro _; rfl
  | cons r rest ih =>
    intro h
    have hr : ¬ r.id = id := h r (by simp)
    have ht := ih (fun q hq => h q (by simp [hq]))
    simp [updateVideoAnalysisReport, hr, ht]

lemma updateVideoAnalysisReport_found (id : String) (u : ReportUpdates) :
    ∀ (pre : List VideoAnalysisReport) (r : VideoAnalysisReport)
      (post : List VideoAnalysisReport), r.id = id → (∀ q ∈ pre, q.id ≠ id) →
      updateVideoAnalysisReport (pre ++ r :: post) id u
        = (pre ++ applyUpdates r u :: post, Except.ok (applyUpdates r u)) := by
  intro pre
  induction pre with
  | nil =>
    intro r post hr _
    simp [updateVideoAnalysisReport, hr]
  | cons q pre ih =>
    intro r post hr h
    have hq : ¬ q.id = id := h q (by simp)
    have ht := ih r post hr (fun x hx => h x (by simp [hx]))
    simp [updateVideoAnalysisReport, hq, ht]

lemma proceedWithCapture_finalPaused (el : VideoElementState) (env : CaptureEnv)
    (t : ℚ) :
    (proceedWithCapture el env t).finalPaused = (el.paused || !el.isConnected) := by
  have hr : restoredPaused el.paused el.isConnected = (el.paused || !el.isConnected) := by
    cases el.paused <;> cases el.isConnected <;> rfl
  cases hse : env.seekEvent <;>
    simp [proceedWithCapture, hse, apply_ite CaptureRun.finalPaused, hr]

lemma proceedWithCapture_seekTarget (el : VideoElementState) (env : CaptureEnv)
    (t : ℚ) :
    (proceedWithCapture el env t).seekTarget = some t := by
  cases hse : env.seekEvent <;>
    simp [proceedWithCapture, hse, apply_ite CaptureRun.seekTarget]

lemma captureFrameAtTime_paused_cases (el : VideoElementState) (env : CaptureEnv)
    (t : ℚ) :
    ((captureFrameAtTime el env t).seekTarget = none
      ∧ (captureFrameAtTime el env t).finalPaused = el.paused)
    ∨ ((captureFrameAtTime el env t).seekTarget = some t
      ∧ (captureFrameAtTime el env t).finalPaused = (el.paused || !el.isConnected)) := by
  unfold captureFrameAtTime
  by_cases h1 : el.readyState < HAVE_METADATA
  · simp only [h1, if_true]
    by_cases h2 : (el.readyState == HAVE_NOTHING && !el.hasCurrentSrc) = true
    · simp [h2]
    · cases hm : env.metadataEvent
      · simp [h2, hm, proceedWithCapture_finalPaused, proceedWithCapture_seekTarget]
      · simp [h2, hm]
  · simp [h1, proceedWithCapture_finalPaused, proceedWithCapture_seekTarget]

/-! Claim theorems. -/

/-- Claim C2: for every raw input text on which the decode step fails, the
parse step propagates no exception and produces an AnalysisResult whose error
field is set to the parse-failure description, whose violations list is empty,
and whose rawResponse is the original raw text. -/
theorem parse_failure_yields_wellformed_result
    (decode : String → Option ParsedAnalysisResult) (raw : String)
    (hfail : decode raw = none) :
    (parseAnalysisResponse decode raw).error = some "Failed to parse analysis result."
    ∧ (parseAnalysisResponse decode raw).violations = []
    ∧ (parseAnalysisResponse decode raw).rawResponse = some raw := by
  simp [parseAnalysisResponse, hfail]

/-- Witness for C2 at the Scenario B input: the raw text is the non-JSON
string and the decode fails on it. -/
theorem parse_failure_yields_wellformed_result_witness :
    decodeAlwaysFails "not json" = none
    ∧ ((parseAnalysisResponse decodeAlwaysFails "not json").error
          = some "Failed to parse analysis result."
      ∧ (parseAnalysisResponse decodeAlwaysFails "not json").violations = []
      ∧ (parseAnalysisResponse decodeAlwaysFails "not json").rawResponse
          = some "not json") :=
  ⟨rfl, parse_failure_yields_wellformed_result decodeAlwaysFails "not json" rfl⟩

/-- Counterexample to C4 as stated: on the descriptor with two channels, a
sample rate of 0 Hz and an AAC codec, the spec's condition (sampleRateHz <
8000) holds, yet detectAudioIssues reports no issue because a zero
sample_rate is falsy in JavaScript and the low-sample-rate check is
skipped. -/
theorem needsRepair_spec_mismatch :
    needsRepairSpec badAudioDescriptor = true
    ∧ needsRepair badAudioDescriptor = false := by
  decide

/-- Claim C4 (amended): needsRepair is true exactly when channels is zero or
absent, or the sample rate is present, nonzero and below 8000 Hz, or the
codec is absent or empty; every descriptor with zero channels is flagged, and
the repaired descriptor (stereo, 44100 Hz, AAC) is not flagged. -/
theorem needsRepair_characterization (d : AudioStreamInfo) :
    (needsRepair d = true ↔
      (natTruthy d.channels = false
        ∨ (natTruthy d.sample_rate = true ∧ d.sample_rate.getD 0 < 8000)
        ∨ strTruthy d.codec_name = false))
    ∧ (d.channels = some 0 → needsRepair d = true)
    ∧ needsRepair repairedDescriptor = false := by
  have hiff : needsRepair d = true ↔
      (natTruthy d.channels = false
        ∨ (natTruthy d.sample_rate = true ∧ d.sample_rate.getD 0 < 8000)
        ∨ strTruthy d.codec_name = false) := by
    unfold needsRepair detectAudioIssues
    cases h1 : natTruthy d.channels <;> cases h2 : natTruthy d.sample_rate <;>
      cases h3 : strTruthy d.codec_name <;>
        by_cases h4 : d.sample_rate.getD 0 < 8000 <;>
          simp [h1, h2, h3, h4]
  refine ⟨hiff, fun h0 => hiff.mpr (Or.inl ?_), by decide⟩
  rw [h0]
  rfl

/-- Witness for C4 (amended): the zero-channel descriptor is flagged. -/
theorem needsRepair_characterization_witness :
    zeroChannelDescriptor.channels = some 0
    ∧ needsRepair zeroChannelDescriptor = true :=
  ⟨rfl, (needsRepair_characterization zeroChannelDescriptor).2.1 rfl⟩

/-- Counterexample to C5 as stated: running the ingest pipeline on the
example upload succeeds (the outer `some`), yet afterwards the file at the
input path no longer exists (the inner `none`) — processVideoFile unlinks the
original after processing, so the input file does not survive the
pipeline. -/
theorem ingest_deletes_input_file :
    fsAfterIngestAtInput = some none := by
  decide

/-- Claim C5 (amended): the repair operation itself writes outputPath and
never mutates inputPath — immediately after repair the input entry is
unchanged, the output holds the transcoded content, and every other path is
untouched; but the surrounding ingest pipeline deletes the file at inputPath
once processing succeeds, so after processVideoFile completes the input file
no longer exists. -/
theorem repair_preserves_input_and_ingest_unlinks {α : Type}
    (transcode : α → α) (fs : FileSystem α) (inputPath outputPath : String)
    (hne : inputPath ≠ outputPath) (c : α) (hc : fs inputPath = some c) :
    (∃ fs1, processVideo transcode fs inputPath outputPath = Except.ok fs1
      ∧ fs1 inputPath = some c
      ∧ fs1 outputPath = some (transcode c)
      ∧ ∀ p, p ≠ outputPath → fs1 p = fs p)
    ∧ (∃ r, processVideoFile transcode fs inputPath outputPath = Except.ok r
      ∧ r.fs inputPath = none
      ∧ r.fs outputPath = some (transcode c)) := by
  constructor
  · refine ⟨fun p => if p = outputPath then some (transcode c) else fs p,
      ?_, ?_, ?_, ?_⟩
    · simp [processVideo, hc]
    · simp [hne, hc]
    · simp
    · intro p hp
      simp [hp]
  · have hrun : processVideoFile transcode fs inputPath outputPath
        = Except.ok
          { fs := fun p => if p = inputPath then none
              else if p = outputPath then some (transcode c) else fs p
            finalPath := outputPath
            processingStatus := "completed" } := by
      simp [processVideoFile, processVideo, needsGeminiProcessing, hc]
    refine ⟨_, hrun, ?_, ?_⟩
    · simp
    · simp [Ne.symm hne]

/-- Witness for C5 (amended) at the concrete example upload. -/
theorem repair_preserves_input_and_ingest_unlinks_witness :
    "uploads/temp/site.mp4" ≠ "uploads/processed/site_processed.mp4"
    ∧ exUploadFs "uploads/temp/site.mp4" = some "original-bytes"
    ∧ ((∃ fs1, processVideo exTranscode exUploadFs "uploads/temp/site.mp4"
          "uploads/processed/site_processed.mp4" = Except.ok fs1
        ∧ fs1 "uploads/temp/site.mp4" = some "original-bytes"
        ∧ fs1 "uploads/processed/site_processed.mp4"
            = some (exTranscode "original-bytes")
        ∧ ∀ p, p ≠ "uploads/processed/site_processed.mp4" → fs1 p = exUploadFs p)
      ∧ (∃ r, processVideoFile exTranscode exUploadFs "uploads/temp/site.mp4"
          "uploads/processed/site_processed.mp4" = Except.ok r
        ∧ r.fs "uploads/temp/site.mp4" = none
        ∧ r.fs "uploads/processed/site_processed.mp4"
            = some (exTranscode "original-bytes"))) :=
  ⟨by decide, rfl,
    repair_preserves_input_and_ingest_unlinks exTranscode exUploadFs
      "uploads/temp/site.mp4" "uploads/processed/site_processed.mp4"
      (by decide) "original-bytes" rfl⟩

/-- Claim C6: for every handle whose reported native width or height is zero
when the seek completes, captureFrameAtTime resolves to null and never
rejects on that path. -/
theorem zero_dimension_resolves_null (el : VideoElementState) (env : CaptureEnv)
    (t : ℚ) (hseek : env.seekEvent = SeekEvent.seeked)
    (hdim : el.videoWidth = 0 ∨ el.videoHeight = 0) :
    (captureFrameAtTime el env t).outcome = CaptureOutcome.resolved none := by
  have hpro : (proceedWithCapture el env t).outcome = CaptureOutcome.resolved none := by
    rcases hdim with h | h <;> simp [proceedWithCapture, hseek, h]
  unfold captureFrameAtTime
  by_cases h1 : el.readyState < HAVE_METADATA
  · simp only [h1, if_true]
    by_cases h2 : (el.readyState == HAVE_NOTHING && !el.hasCurrentSrc) = true
    · simp [h2]
    · cases hm : env.metadataEvent with
      | fires => simp [h2, hm, hpro]
      | timesOut => simp [h2, hm]
  · simp [h1, hpro]

/-- Witness for C6 at a metadata-ready handle reporting zero width. -/
theorem zero_dimension_resolves_null_witness :
    seekedEnv.seekEvent = SeekEvent.seeked
    ∧ (zeroWidthEl.videoWidth = 0 ∨ zeroWidthEl.videoHeight = 0)
    ∧ (captureFrameAtTime zeroWidthEl seekedEnv 10).outcome
        = CaptureOutcome.resolved none :=
  ⟨rfl, Or.inl rfl,
    zero_dimension_resolves_null zeroWidthEl seekedEnv 10 rfl (Or.inl rfl)⟩

/-- Counterexample to C7 as stated: a playing element that is no longer
connected to the document issues the seek and captures successfully, yet is
left paused — the cleanup resumes playback only while `isConnected` holds, so
restoration is not unconditional on every exit path. -/
theorem playback_not_restored_when_disconnected :
    disconnectedPlayingEl.paused = false
    ∧ (captureFrameAtTime disconnectedPlayingEl seekedEnv 5).seekTarget = some 5
    ∧ (captureFrameAtTime disconnectedPlayingEl seekedEnv 5).outcome
        = CaptureOutcome.resolved (some "data:image/jpeg;base64,Zg==")
    ∧ (captureFrameAtTime disconnectedPlayingEl seekedEnv 5).finalPaused = true := by
  decide

/-- Claim C7 (amended): once the seek is issued, playback is paused for its
duration and the element ends un-paused exactly when it was playing and is
still connected to the document — on every exit path (capture, zero-dimension
null, missing context, decoder error, seek timeout) alike; an element that
was already paused stays paused, and a playing element that has been
disconnected is left paused. -/
theorem playback_restored_exactly_when_connected (el : VideoElementState)
    (env : CaptureEnv) (t : ℚ)
    (hseek : (captureFrameAtTime el env t).seekTarget = some t) :
    (captureFrameAtTime el env t).finalPaused = (el.paused || !el.isConnected)
    ∧ (el.paused = true → (captureFrameAtTime el env t).finalPaused = true) := by
  rcases captureFrameAtTime_paused_cases el env t with ⟨hnone, _⟩ | ⟨_, hfp⟩
  · rw [hnone] at hseek
    exact Option.noConfusion hseek
  · exact ⟨hfp, fun hp => by simp [hfp, hp]⟩

/-- Witness for C7 (amended): a playing, connected element is resumed after a
successful capture. -/
theorem playback_restored_exactly_when_connected_witness :
    (captureFrameAtTime connectedPlayingEl seekedEnv 5).seekTarget = some 5
    ∧ (captureFrameAtTime connectedPlayingEl seekedEnv 5).finalPaused = false := by
  refine ⟨by decide, ?_⟩
  have h := (playback_restored_exactly_when_connected connectedPlayingEl
    seekedEnv 5 (by decide)).1
  rw [h]
  decide

/-- Claim C9: addVideoAnalysisReport ignores any caller-supplied
analysisDateTime and stores the creation time current at the call, so the
stored timestamp differs from the payload's whenever the payload carried a
different one. -/
theorem add_overwrites_analysis_datetime (store : List VideoAnalysisReport)
    (clock : Nat) (payload : VideoAnalysisReportData) :
    (addVideoAnalysisReport store clock payload).2.analysisDateTime = toIsoString clock
    ∧ (payload.analysisDateTime ≠ toIsoString clock →
        (addVideoAnalysisReport store clock payload).2.analysisDateTime
          ≠ payload.analysisDateTime) :=
  ⟨rfl, fun hne h => hne h.symm⟩

/-- Witness for C9: payload A carries an ISO timestamp different from the
clock at save time, and the stored report keeps the clock value. -/
theorem add_overwrites_analysis_datetime_witness :
    payloadA.analysisDateTime ≠ toIsoString 5
    ∧ (addVideoAnalysisReport [] 5 payloadA).2.analysisDateTime
        ≠ payloadA.analysisDateTime :=
  ⟨by decide, (add_overwrites_analysis_datetime [] 5 payloadA).2 (by decide)⟩

/-- Claim C1: saving a new analysis is rejected exactly when the result has
its error set and its violations list is empty; with no error, or an error
but at least one violation, the save proceeds and appends the report; a
rejected save leaves the report store unchanged.  An error field is "set"
when it holds a non-empty description, matching the JavaScript truthiness
test the guard performs. -/
theorem save_rejected_iff_error_and_no_violations
    (ctx : SaveContext) (store : List VideoAnalysisReport) (clock : Nat)
    (ar : ParsedAnalysisResult) (fileName : String)
    (details : UploadedFileDetails)
    (hview : ctx.selectedReportForViewing = none)
    (har : ctx.analysisResult = some ar)
    (hfile : ctx.selectedFileName = some fileName)
    (hdet : ctx.uploadedFileDetails = some details) :
    ((handleSaveReport ctx store clock).2
        = SaveOutcome.rejected
            "Cannot save report with critical analysis errors and no violation data."
      ↔ (strTruthy ar.error = true ∧ ar.violations = []))
    ∧ ((strTruthy ar.error = true ∧ ar.violations = []) →
        (handleSaveReport ctx store clock).1 = store)
    ∧ (¬ (strTruthy ar.error = true ∧ ar.violations = []) →
        ∃ r, handleSaveReport ctx store clock
          = (store ++ [r], SaveOutcome.saved r)) := by
  have hguard : rejectsForCriticalError ctx
      = (strTruthy ar.error && ar.violations.isEmpty) := by
    simp [rejectsForCriticalError, hview, har]
  cases hb : (strTruthy ar.error && ar.violations.isEmpty) with
  | true =>
    have h12 := hb
    rw [Bool.and_eq_true] at h12
    obtain ⟨h1, h2⟩ := h12
    have hviol : ar.violations = [] := by
      cases hvs : ar.violations with
      | nil => rfl
      | cons a l => rw [hvs] at h2; simp at h2
    have hrun : handleSaveReport ctx store clock
        = (store, SaveOutcome.rejected
            "Cannot save report with critical analysis errors and no violation data.") := by
      unfold handleSaveReport
      rw [hguard, hb]
      simp
    exact ⟨iff_of_true (by rw [hrun]) ⟨h1, hviol⟩,
      fun _ => by rw [hrun],
      fun hn => absurd ⟨h1, hviol⟩ hn⟩
  | false =>
    have hnc : ¬ (strTruthy ar.error = true ∧ ar.violations = []) := by
      intro hcond
      rw [hcond.1, hcond.2] at hb
      simp at hb
    have hrun : handleSaveReport ctx store clock
        = (store ++ [(addVideoAnalysisReport store clock
              (newReportPayload ctx fileName details ar clock)).2],
           SaveOutcome.saved (addVideoAnalysisReport store clock
              (newReportPayload ctx fileName details ar clock)).2) := by
      unfold handleSaveReport
      rw [hguard, hb]
      simp [hview, har, hfile, hdet, addVideoAnalysisReport]
    exact ⟨iff_of_false (by rw [hrun]; simp) hnc,
      fun hcond => absurd hcond hnc,
      fun _ => ⟨_, hrun⟩⟩

/-- Witness for C1: the total-failure result (error, zero violations) is
rejected with the store untouched, and the partial-failure result (error, one
violation) is saved. -/
theorem save_rejected_iff_error_and_no_violations_witness :
    (strTruthy totalFailureResult.error = true
      ∧ totalFailureResult.violations = [])
    ∧ (handleSaveReport totalFailureCtx [] 7).2
        = SaveOutcome.rejected
            "Cannot save report with critical analysis errors and no violation data."
    ∧ (handleSaveReport totalFailureCtx [] 7).1 = []
    ∧ ¬ (strTruthy partialFailureResult.error = true
          ∧ partialFailureResult.violations = [])
    ∧ (∃ r, handleSaveReport partialFailureCtx [] 7
        = ([] ++ [r], SaveOutcome.saved r)) := by
  have h1 := save_rejected_iff_error_and_no_violations totalFailureCtx [] 7
    totalFailureResult "site.mp4" uploadDetailsEx rfl rfl rfl rfl
  have h2 := save_rejected_iff_error_and_no_violations partialFailureCtx [] 7
    partialFailureResult "site.mp4" uploadDetailsEx rfl rfl rfl rfl
  exact ⟨⟨by decide, rfl⟩, h1.1.mpr ⟨by decide, rfl⟩, h1.2.1 ⟨by decide, rfl⟩,
    by decide, h2.2.2 (by decide)⟩

/-- Claim C3: the evidence binder visits violations in list order, invoking
frame capture exactly at each pending violation's startTimeSeconds (the
trace); the result is pointwise determined — pending entries receive the
capture outcome at their own index, non-pending entries are untouched — so a
null or rejected capture at index i stores null there, aborts nothing after
i, and updates to indices before i are never rolled back. -/
theorem thumbnails_sequential_no_rollback (cap : Nat → CapOutcome)
    (vs : List DetectedViolation)
    (_hpend : vs.any (fun v => v.thumbnailDataUrl.isNone) = true) :
    (generateAllThumbnails cap vs).1.length = vs.length
    ∧ (generateAllThumbnails cap vs).2
        = (vs.filter (fun v => v.thumbnailDataUrl.isNone)).map
            (fun v => v.startTimeSeconds)
    ∧ (∀ j, (generateAllThumbnails cap vs).1.get? j
        = (vs.get? j).map (fun v =>
            if v.thumbnailDataUrl.isNone then applyCapture (cap j) v else v))
    ∧ (∀ j v, vs.get? j = some v → v.thumbnailDataUrl = none →
        (cap j = CapOutcome.softNull ∨ ∃ m, cap j = CapOutcome.err m) →
        (generateAllThumbnails cap vs).1.get? j
          = some { v with thumbnailDataUrl := some none })
    ∧ (∀ j v, vs.get? j = some v → v.thumbnailDataUrl ≠ none →
        (generateAllThumbnails cap vs).1.get? j = some v) := by
  have hget : ∀ j, (generateAllThumbnails cap vs).1.get? j
      = (vs.get? j).map (fun v =>
          if v.thumbnailDataUrl.isNone then applyCapture (cap j) v else v) := by
    intro j
    have h := generateThumbnailsFrom_get? cap vs 0 j
    simpa [generateAllThumbnails] using h
  refine ⟨generateThumbnailsFrom_length cap vs 0,
    generateThumbnailsFrom_trace cap vs 0, hget, ?_, ?_⟩
  · intro j v hv hpend2 hfail
    rw [hget j, hv]
    rcases hfail with h | ⟨m, h⟩ <;> simp [hpend2, h, applyCapture]
  · intro j v hv hnot
    rw [hget j, hv]
    cases hcase : v.thumbnailDataUrl with
    | none => exact absurd hcase hnot
    | some a => simp [hcase]

/-- Witness for C3: on the example list the binder captures at 10 s and 30 s
only (index 1 already has a thumbnail), the rejected capture at index 2
stores null, and the already-captured entry is untouched. -/
theorem thumbnails_sequential_no_rollback_witness :
    violationsEx.any (fun v => v.thumbnailDataUrl.isNone) = true
    ∧ (generateAllThumbnails capEx violationsEx).2 = [(10 : ℚ), 30]
    ∧ (generateAllThumbnails capEx violationsEx).1.get? 2
        = some { pendingViolation2 with thumbnailDataUrl := some none }
    ∧ (generateAllThumbnails capEx violationsEx).1.get? 1
        = some capturedViolation := by
  have h := thumbnails_sequential_no_rollback capEx violationsEx (by decide)
  refine ⟨by decide, h.2.1.trans (by decide), ?_, ?_⟩
  · exact h.2.2.2.1 2 pendingViolation2 (by decide) rfl
      (Or.inr ⟨"Timeout during frame capture seeking.", rfl⟩)
  · exact h.2.2.2.2 1 capturedViolation (by decide) (by decide)

/-- Counterexample to C8 as stated: ids are minted from the millisecond
clock, so a second report saved in the same millisecond receives the id of an
existing report; fetching by the returned id then finds the earlier report,
whose summary differs from the saved payload's. -/
theorem report_roundtrip_id_collision :
    collidingRoundTrip.map (fun r => r.summary) = some (some "summary A")
    ∧ payloadB.summary = some "summary B"
    ∧ collidingRoundTrip.map (fun r => r.summary) ≠ some payloadB.summary := by
  refine ⟨by decide, rfl, by decide⟩

/-- Claim C8 (amended): provided the id minted for the new report is not
already carried by a report in the store (ids collide only when two reports
are created in the same millisecond), creating a report and fetching it by
the returned id yields the stored report, whose violations, summary and
safetyScore equal those of the saved payload. -/
theorem report_roundtrip_fresh_id (store : List VideoAnalysisReport)
    (clock : Nat) (payload : VideoAnalysisReportData)
    (hfresh : ∀ r ∈ store, r.id ≠ "var-" ++ toString clock) :
    getVideoAnalysisReportById (addVideoAnalysisReport store clock payload).1
        (addVideoAnalysisReport store clock payload).2.id
      = some (addVideoAnalysisReport store clock payload).2
    ∧ (addVideoAnalysisReport store clock payload).2.violations
        = payload.violations
    ∧ (addVideoAnalysisReport store clock payload).2.summary = payload.summary
    ∧ (addVideoAnalysisReport store clock payload).2.safetyScore
        = payload.safetyScore := by
  refine ⟨?_, rfl, rfl, rfl⟩
  have hid : (addVideoAnalysisReport store clock payload).2.id
      = "var-" ++ toString clock := rfl
  have hstore : (addVideoAnalysisReport store clock payload).1
      = store ++ [(addVideoAnalysisReport store clock payload).2] := rfl
  unfold getVideoAnalysisReportById
  rw [hstore, find?_append_of_all_neg]
  · simp [List.find?]
  · intro r hr
    simpa [hid] using hfresh r hr

/-- Witness for C8 (amended): saving payload A into an empty store and
fetching it back returns the stored report with payload A's summary. -/
theorem report_roundtrip_fresh_id_witness :
    (∀ r ∈ ([] : List VideoAnalysisReport), r.id ≠ "var-" ++ toString 5)
    ∧ getVideoAnalysisReportById (addVideoAnalysisReport [] 5 payloadA).1
        (addVideoAnalysisReport [] 5 payloadA).2.id
      = some (addVideoAnalysisReport [] 5 payloadA).2
    ∧ (addVideoAnalysisReport [] 5 payloadA).2.summary = payloadA.summary :=
  ⟨fun r hr => absurd hr (List.not_mem_nil r),
   (report_roundtrip_fresh_id [] 5 payloadA
      (fun r hr => absurd hr (List.not_mem_nil r))).1,
   (report_roundtrip_fresh_id [] 5 payloadA
      (fun r hr => absurd hr (List.not_mem_nil r))).2.2.1⟩

/-- Claim C10: updating an absent id fails with the not-found error and
leaves the store unchanged; updating the (first) report carrying a present id
replaces exactly that slot with the original overwritten by the fields
present in the updates — fields absent from the updates, analysisDateTime
included, keep their prior values — and every other report is unchanged. -/
theorem update_report_characterization (store : List VideoAnalysisReport)
    (id : String) (u : ReportUpdates) :
    ((∀ r ∈ store, r.id ≠ id) →
      updateVideoAnalysisReport store id u
        = (store, Except.error "Report not found for update."))
    ∧ (∀ pre r post, store = pre ++ r :: post → r.id = id →
        (∀ q ∈ pre, q.id ≠ id) →
        updateVideoAnalysisReport store id u
          = (pre ++ applyUpdates r u :: post, Except.ok (applyUpdates r u)))
    ∧ (∀ r : VideoAnalysisReport,
        (applyUpdates r u).analysisDateTime
          = u.analysisDateTime.getD r.analysisDateTime
        ∧ (applyUpdates r u).operatorComments
          = u.operatorComments.getD r.operatorComments
        ∧ (applyUpdates r u).reportStatus = u.reportStatus.getD r.reportStatus
        ∧ (applyUpdates r u).violations = u.violations.getD r.violations) := by
  refine ⟨fun h => updateVideoAnalysisReport_not_found id u store h,
    fun pre r post hs hr hpre => ?_, fun r => ⟨rfl, rfl, rfl, rfl⟩⟩
  rw [hs]
  exact updateVideoAnalysisReport_found id u pre r post hr hpre

/-- Witness for C10: an operator update hits the var-5 report, leaves the
var-1 report untouched, and an absent id leaves the whole store unchanged
with an error. -/
theorem update_report_characterization_witness :
    reportY.id = "var-5"
    ∧ (∀ q ∈ [reportX], q.id ≠ "var-5")
    ∧ updateVideoAnalysisReport [reportX, reportY] "var-5" updatesEx
        = ([reportX, applyUpdates reportY updatesEx],
           Except.ok (applyUpdates reportY updatesEx))
    ∧ (∀ r ∈ [reportX, reportY], r.id ≠ "var-9")
    ∧ updateVideoAnalysisReport [reportX, reportY] "var-9" updatesEx
        = ([reportX, reportY], Except.error "Report not found for update.") := by
  refine ⟨rfl, by decide, ?_, by decide, ?_⟩
  · exact (update_report_characterization [reportX, reportY] "var-5"
      updatesEx).2.1 [reportX] reportY [] rfl rfl (by decide)
  · exact (update_report_characterization [reportX, reportY] "var-9"
      updatesEx).1 (by decide)

end SiteGuard
